import Mathlib

/-!
Verification of the two modules of this repository:

* `lib/ansible/modules/network/aci/aci_bd_dhcp_label.py` — an Ansible module
  managing a DHCP relay label (class dhcpLbl) on a bridge domain of a Cisco
  ACI fabric.  Its `main` declares an argument spec, constructs a three-level
  object locator (tenant, bridge domain, DHCP label), fetches the existing
  object, and dispatches on `state` to post, delete, or merely report.
* `test/integration/targets/collections/.../uses_leaf_mu_module_import_from.py`
  — a test fixture that calls an imported module utility and prints one JSON
  result.

The module is embedded as a function from a parameter record to either a
validation error or the trace of calls it makes on its collaborators
(the `ACIModule` client and the result emitter).  The collaborator internals
(`AnsibleModule` validation engine, `ACIModule` methods) live in
`module_utils`, which is not part of this repository snapshot; where a claim
depends on their behaviour they are modelled from the specification, and each
such definition is marked `Modelled from the spec:` in its doc comment.
-/

namespace AciBdDhcpLabel

/-- The parameter surface of the module relevant to its behaviour.
Fields `bd`, `dhcp_label`, `dhcp_option`, `owner`, `state`, `tenant` mirror
the `argument_spec.update(...)` keys (source lines 121-128); `description`
stands for the documented-but-undeclared `description` option (DOCUMENTATION
lines 35-38): supplying it means passing a parameter that is absent from the
declared argument spec. -/
structure Params where
  bd : Option String
  dhcp_label : Option String
  dhcp_option : Option String
  owner : Option String
  state : Option String
  tenant : Option String
  description : Option String
  deriving DecidableEq, Repr

/-- Parameters after framework validation: defaults applied, choices
checked, required-if satisfied. -/
structure ValidParams where
  bd : Option String
  dhcp_label : Option String
  dhcp_option : Option String
  owner : String
  state : String
  tenant : Option String
  deriving DecidableEq, Repr

/-- Python str-formatting of a possibly-missing value: `'{0}'.format(None)`
yields the string `None`. -/
def pyStr : Option String → String
  | some s => s
  | none => "None"

/-- Modelled from the spec: the host framework's parameter validation
(the `AnsibleModule` argument-spec engine of `module_utils/basic.py`, which
is not under this snapshot).  Per the spec it rejects parameters outside the
recognized keys, applies declared defaults, rejects values outside declared
choices, and enforces the required-if rules, all before any collaborator
operation is invoked.  The declared data it enforces — aliases, choices,
defaults (source lines 121-128) and the `required_if` rules (lines 133-136)
— is taken verbatim from the module source. -/
def validate (p : Params) : Except String ValidParams :=
  if p.description.isSome then
    Except.error "Unsupported parameters for (aci_bd_dhcp_label) module: description"
  else if p.owner.getD "infra" = "infra" ∨ p.owner.getD "infra" = "tenant" then
    if p.state.getD "present" = "absent" ∨ p.state.getD "present" = "present" ∨
        p.state.getD "present" = "query" then
      if (p.state.getD "present" = "absent" ∨ p.state.getD "present" = "present") ∧
          (p.dhcp_label.isNone ∨ p.bd.isNone ∨ p.tenant.isNone) then
        Except.error ("state is " ++ p.state.getD "present" ++
          " but all of the following are missing: dhcp_label, bd, tenant")
      else
        Except.ok { bd := p.bd, dhcp_label := p.dhcp_label,
                    dhcp_option := p.dhcp_option, owner := p.owner.getD "infra",
                    state := p.state.getD "present", tenant := p.tenant }
    else
      Except.error ("value of state must be one of: absent, present, query, got: " ++
        p.state.getD "present")
  else
    Except.error ("value of owner must be one of: infra, tenant, got: " ++
      p.owner.getD "infra")

/-- One level of the object locator passed to `construct_url`
(source lines 148-168): ACI class, relative name, exact-match filter, and
the identifying value (None when the level is unfiltered). -/
structure PathSegment where
  aci_class : String
  aci_rn : String
  target_filter : String
  module_object : Option String
  deriving DecidableEq, Repr

/-- The full hierarchical locator: the three keyword arguments of the
`construct_url` call plus the declared child classes. -/
structure Locator where
  root_class : PathSegment
  subclass_1 : PathSegment
  subclass_2 : PathSegment
  child_classes : List String
  deriving DecidableEq, Repr

/-- The locator's path segments in nesting order. -/
def Locator.segments (l : Locator) : List PathSegment :=
  [l.root_class, l.subclass_1, l.subclass_2]

/-- Modelled from the spec: `construct_url` (in `module_utils`, not under
this snapshot) produces an exact single-object lookup only when every level
carries its identifying value; a level whose `module_object` is None is left
unfiltered, broadening the query to match multiple candidate objects. -/
def Locator.isExactMatch (l : Locator) : Bool :=
  l.segments.all (fun seg => seg.module_object.isSome)

/-- One child-object configuration entry of the `payload` call
(source lines 179-182). -/
structure ChildConfig where
  child_class : String
  attributes : List (String × Option String)
  deriving DecidableEq, Repr

/-- A call the module makes on its collaborators, in program order. -/
inductive Op where
  | construct_url (loc : Locator)
  | get_existing
  | payload (aci_class : String) (class_config : List (String × Option String))
      (child_configs : List ChildConfig)
  | get_diff (aci_class : String)
  | post_config
  | delete_config
  | exit_json
  deriving DecidableEq, Repr

/-- Embedding of `main` of `aci_bd_dhcp_label.py` (source lines 119-191):
validation by the framework, then the exact sequence of collaborator calls.
The locator mirrors lines 148-168, the payload lines 173-182, and the state
dispatch lines 172-191. -/
def main (p : Params) : Except String (List Op) :=
  match validate p with
  | Except.error e => Except.error e
  | Except.ok v =>
    Except.ok
      ([Op.construct_url
          { root_class :=
              { aci_class := "fvTenant",
                aci_rn := "tn-" ++ pyStr v.tenant,
                target_filter := "eq(fvTenant.name, \"" ++ pyStr v.tenant ++ "\")",
                module_object := v.tenant },
            subclass_1 :=
              { aci_class := "fvBD",
                aci_rn := "BD-" ++ pyStr v.bd,
                target_filter := "eq(fvBD.name, \"" ++ pyStr v.bd ++ "\")",
                module_object := v.bd },
            subclass_2 :=
              { aci_class := "dhcpLbl",
                aci_rn := "dhcplbl-" ++ pyStr v.dhcp_label,
                target_filter := "eq(dhcpLbl.name, \"" ++ pyStr v.dhcp_label ++ "\")",
                module_object := v.dhcp_label },
            child_classes := ["dhcpRsDhcpOptionPol"] },
        Op.get_existing] ++
       (if v.state = "present" then
          [Op.payload "dhcpLbl"
             [("name", v.dhcp_label), ("owner", some v.owner)]
             [{ child_class := "dhcpRsDhcpOptionPol",
                attributes := [("tnDhcpOptionPolName", v.dhcp_option)] }],
           Op.get_diff "dhcpLbl",
           Op.post_config]
        else if v.state = "absent" then
          [Op.delete_config]
        else
          []) ++
       [Op.exit_json])

/-- The remote object fetched at the locator: attribute map and existing
child associations. -/
structure AciObject where
  attributes : List (String × String)
  children : List (String × List (String × String))
  deriving DecidableEq, Repr

/-- A desired configuration as assembled by the client: attribute map plus
child association records. -/
structure Proposed where
  attrs : List (String × String)
  children : List (String × List (String × String))
  deriving DecidableEq, Repr

/-- A network request issued by the client collaborator. -/
inductive NetReq where
  | fetch
  | write (cfg : Proposed)
  | delete
  deriving DecidableEq, Repr

/-- The client collaborator's internal state while interpreting the
module's calls. -/
structure CollabState where
  existing : Option AciObject
  proposed : Option Proposed
  config : Option Proposed
  deriving DecidableEq, Repr

/-- The client state before any call. -/
def CollabState.init : CollabState := ⟨none, none, none⟩

/-- Modelled from the spec: the client's `payload` method (in
`module_utils/network/aci/aci.py`, not under this snapshot).  It builds the
desired attribute set, dropping attributes whose value is missing, and keeps
a child association record only when at least one of its attributes carries
a value — so an association with no option-policy name contributes no child
record. -/
def aciPayload (class_config : List (String × Option String))
    (child_configs : List ChildConfig) : Proposed :=
  { attrs := class_config.filterMap (fun kv => kv.2.map (fun val => (kv.1, val))),
    children :=
      (child_configs.filter (fun c => c.attributes.any (fun kv => kv.2.isSome))).map
        (fun c => (c.child_class,
          c.attributes.filterMap (fun kv => kv.2.map (fun val => (kv.1, val))))) }

/-- Attributes of the proposed set that differ from (or are absent in) the
existing object's attributes. -/
def diffAttrs (proposed existing : List (String × String)) :
    List (String × String) :=
  proposed.filter (fun kv => !(existing.lookup kv.1 == some kv.2))

/-- Modelled from the spec: the client's `get_diff` method (in
`module_utils`, not under this snapshot).  It computes the minimal diff of
the proposed configuration against the fetched object: the whole proposed
set when the object does not exist, otherwise only the attributes and child
records not already present; the result is empty (None) exactly when the
existing object already matches the desired state. -/
def aciGetDiff (existing : Option AciObject) (proposed : Option Proposed) :
    Option Proposed :=
  match proposed with
  | none => none
  | some pr =>
    match existing with
    | none => some pr
    | some ex =>
      let da := diffAttrs pr.attrs ex.attributes
      let dc := pr.children.filter (fun c => !(ex.children.contains c))
      if da = [] ∧ dc = [] then none else some { attrs := da, children := dc }

/-- Modelled from the spec: interpretation of one collaborator call against
the remote object `remote` standing at the locator.  `get_existing` performs
the single fetch; `get_diff` stores the minimal diff; `post_config` issues a
write only when a diff exists; `delete_config` issues a delete only when the
object exists; `construct_url` and `exit_json` perform no network I/O. -/
def interpOp (remote : Option AciObject) (s : CollabState) :
    Op → CollabState × List NetReq
  | Op.construct_url _ => (s, [])
  | Op.get_existing => ({ s with existing := remote }, [NetReq.fetch])
  | Op.payload _ cfg ch => ({ s with proposed := some (aciPayload cfg ch) }, [])
  | Op.get_diff _ => ({ s with config := aciGetDiff s.existing s.proposed }, [])
  | Op.post_config =>
    (s, match s.config with
        | none => []
        | some c => [NetReq.write c])
  | Op.delete_config =>
    (s, match s.existing with
        | none => []
        | some _ => [NetReq.delete])
  | Op.exit_json => (s, [])

/-- Interpretation of a whole call trace: final client state and the network
requests issued, in order. -/
def interp (remote : Option AciObject) (s : CollabState) :
    List Op → CollabState × List NetReq
  | [] => (s, [])
  | op :: ops =>
    let step := interpOp remote s op
    let rest := interp remote step.1 ops
    (rest.1, step.2 ++ rest.2)

/-- The network requests one module invocation issues: none when validation
fails, otherwise the interpretation of its call trace. -/
def runModule (p : Params) (remote : Option AciObject) : List NetReq :=
  match main p with
  | Except.error _ => []
  | Except.ok ops => (interp remote CollabState.init ops).2

/-- The desired configuration the client holds after one module invocation
(none when validation fails or no payload was built). -/
def moduleProposed (p : Params) (remote : Option AciObject) : Option Proposed :=
  match main p with
  | Except.error _ => none
  | Except.ok ops => (interp remote CollabState.init ops).1.proposed

/-- Whether a call is the fetch of the existing object. -/
def isFetchOp : Op → Bool
  | Op.get_existing => true
  | _ => false

/-- Whether a call is the creating/updating write. -/
def isPostOp : Op → Bool
  | Op.post_config => true
  | _ => false

/-- Whether a call is the delete. -/
def isDeleteOp : Op → Bool
  | Op.delete_config => true
  | _ => false

/-- Whether a call is the final result emission. -/
def isExitOp : Op → Bool
  | Op.exit_json => true
  | _ => false

end AciBdDhcpLabel

namespace UsesLeafMuModuleImportFrom

/-- An observable event of the test-fixture module
`uses_leaf_mu_module_import_from.py`: printing the JSON result record, or
terminating with an exit status.  `V` is the (unconstrained) type of the
value returned by the module utility `leaf.thingtocall`, whose body is
outside this repository snapshot. -/
inductive FixtureEvent (V : Type) where
  | emit (changed : Bool) (source : String) (mu_result : V)
  | exitStatus (code : Nat)
  deriving DecidableEq, Repr

/-- Whether an event is a printed JSON result. -/
def FixtureEvent.isEmit {V : Type} : FixtureEvent V → Bool
  | FixtureEvent.emit _ _ _ => true
  | _ => false

/-- Whether an event is process termination. -/
def FixtureEvent.isExitStatus {V : Type} : FixtureEvent V → Bool
  | FixtureEvent.exitStatus _ => true
  | _ => false

/-- Embedding of `main` of the fixture (source lines 12-16), given the value
`v` that the `leaf.thingtocall()` call returned: it prints exactly one JSON
record with changed=False, source=user and mu_result=v, then calls
`sys.exit()` with no argument, which terminates with status 0. -/
def fixtureMain {V : Type} (v : V) : List (FixtureEvent V) :=
  [FixtureEvent.emit false "user" v, FixtureEvent.exitStatus 0]

end UsesLeafMuModuleImportFrom

namespace AciBdDhcpLabel

/-- Claim C1: for every tenant name T, bridge-domain name B and label name L,
and each state among present, absent and query, the locator passed to
`construct_url` consists of exactly three path segments in the order tenant,
bridge-domain, label, with classes fvTenant, fvBD, dhcpLbl, relative names
tn-T, BD-B, dhcplbl-L, and exact-match filters eq(fvTenant.name, "T"),
eq(fvBD.name, "B"), eq(dhcpLbl.name, "L"). -/
theorem locator_three_exact_segments (T B L st : String)
    (h : st = "present" ∨ st = "absent" ∨ st = "query") :
    ∃ loc rest, main ⟨some B, some L, none, none, some st, some T, none⟩ =
        Except.ok (Op.construct_url loc :: rest) ∧
      loc.segments =
        [{ aci_class := "fvTenant", aci_rn := "tn-" ++ T,
           target_filter := "eq(fvTenant.name, \"" ++ T ++ "\")",
           module_object := some T },
         { aci_class := "fvBD", aci_rn := "BD-" ++ B,
           target_filter := "eq(fvBD.name, \"" ++ B ++ "\")",
           module_object := some B },
         { aci_class := "dhcpLbl", aci_rn := "dhcplbl-" ++ L,
           target_filter := "eq(dhcpLbl.name, \"" ++ L ++ "\")",
           module_object := some L }] := by
  rcases h with h | h | h <;> subst h <;> exact ⟨_, _, rfl, rfl⟩

/-- Witness for C1 at tenant T1, bridge-domain BD1, label L1, state query. -/
theorem locator_three_exact_segments_witness :
    ∃ loc rest, main ⟨some "BD1", some "L1", none, none, some "query", some "T1", none⟩ =
        Except.ok (Op.construct_url loc :: rest) ∧
      loc.segments =
        [{ aci_class := "fvTenant", aci_rn := "tn-" ++ "T1",
           target_filter := "eq(fvTenant.name, \"" ++ "T1" ++ "\")",
           module_object := some "T1" },
         { aci_class := "fvBD", aci_rn := "BD-" ++ "BD1",
           target_filter := "eq(fvBD.name, \"" ++ "BD1" ++ "\")",
           module_object := some "BD1" },
         { aci_class := "dhcpLbl", aci_rn := "dhcplbl-" ++ "L1",
           target_filter := "eq(dhcpLbl.name, \"" ++ "L1" ++ "\")",
           module_object := some "L1" }] :=
  locator_three_exact_segments "T1" "BD1" "L1" "query" (Or.inr (Or.inr rfl))

/-- Claim C4: with all identifiers supplied, state absent performs the fetch
followed by exactly one delete (no payload, no diff, no write), and state
query performs only the fetch before emitting the result (no write, no
delete). -/
theorem absent_deletes_query_only_fetches (T B L ow : String) (opt : Option String)
    (how : ow = "infra" ∨ ow = "tenant") :
    (∃ loc, main ⟨some B, some L, opt, some ow, some "absent", some T, none⟩ =
        Except.ok [Op.construct_url loc, Op.get_existing, Op.delete_config,
          Op.exit_json]) ∧
    (∃ loc, main ⟨some B, some L, opt, some ow, some "query", some T, none⟩ =
        Except.ok [Op.construct_url loc, Op.get_existing, Op.exit_json]) := by
  rcases how with h | h <;> subst h <;> exact ⟨⟨_, rfl⟩, ⟨_, rfl⟩⟩

/-- Witness for C4 at tenant T1, bridge-domain BD1, label L1, owner infra. -/
theorem absent_deletes_query_only_fetches_witness :
    (∃ loc, main ⟨some "BD1", some "L1", none, some "infra", some "absent", some "T1", none⟩ =
        Except.ok [Op.construct_url loc, Op.get_existing, Op.delete_config,
          Op.exit_json]) ∧
    (∃ loc, main ⟨some "BD1", some "L1", none, some "infra", some "query", some "T1", none⟩ =
        Except.ok [Op.construct_url loc, Op.get_existing, Op.exit_json]) :=
  absent_deletes_query_only_fetches "T1" "BD1" "L1" "infra" none (Or.inl rfl)

/-- Claim C6 (failing input): the module documentation declares an optional
`description` option, but the declared argument spec omits it, so an
invocation supplying a description is rejected by the framework as an
unsupported parameter instead of being reconciled. -/
theorem description_rejected_as_unsupported :
    main ⟨some "BD1", some "L1", none, none, some "present", some "T1",
        some "label for app subnet"⟩ =
      Except.error "Unsupported parameters for (aci_bd_dhcp_label) module: description" :=
  rfl

/-- Claim C8: a query invocation with tenant, bridge-domain and label all
omitted passes validation and builds the locator with every level's
identifying object absent, so it is not an exact single-object lookup. -/
theorem query_without_identifiers_broadens (opt : Option String) :
    ∃ loc, main ⟨none, none, opt, none, some "query", none, none⟩ =
        Except.ok [Op.construct_url loc, Op.get_existing, Op.exit_json] ∧
      loc.segments.map PathSegment.module_object = [none, none, none] ∧
      loc.isExactMatch = false :=
  ⟨_, rfl, rfl, rfl⟩

/-- Claim C5: omitting owner and state yields the defaults infra and
present; any owner outside infra/tenant and any state outside
present/absent/query is rejected at validation. -/
theorem owner_state_choices_and_defaults (w s : String)
    (hw : ¬(w = "infra" ∨ w = "tenant"))
    (hs : ¬(s = "absent" ∨ s = "present" ∨ s = "query")) :
    validate ⟨some "BD1", some "L1", none, none, none, some "T1", none⟩ =
      Except.ok { bd := some "BD1", dhcp_label := some "L1", dhcp_option := none,
                  owner := "infra", state := "present", tenant := some "T1" } ∧
    validate ⟨some "BD1", some "L1", none, some w, none, some "T1", none⟩ =
      Except.error ("value of owner must be one of: infra, tenant, got: " ++ w) ∧
    validate ⟨some "BD1", some "L1", none, none, some s, some "T1", none⟩ =
      Except.error ("value of state must be one of: absent, present, query, got: " ++ s) := by
  refine ⟨rfl, ?_, ?_⟩
  · unfold validate
    simp only [Option.isSome_none, Bool.false_eq_true, if_false, Option.getD_some]
    rw [if_neg hw]
  · unfold validate
    simp only [Option.isSome_none, Bool.false_eq_true, if_false, Option.getD_some,
      Option.getD_none]
    rw [if_pos (Or.inl trivial), if_neg hs]

/-- Witness for C5 with owner `fabric` and state `deleted`. -/
theorem owner_state_choices_and_defaults_witness :
    validate ⟨some "BD1", some "L1", none, none, none, some "T1", none⟩ =
      Except.ok { bd := some "BD1", dhcp_label := some "L1", dhcp_option := none,
                  owner := "infra", state := "present", tenant := some "T1" } ∧
    validate ⟨some "BD1", some "L1", none, some "fabric", none, some "T1", none⟩ =
      Except.error ("value of owner must be one of: infra, tenant, got: " ++ "fabric") ∧
    validate ⟨some "BD1", some "L1", none, none, some "deleted", some "T1", none⟩ =
      Except.error ("value of state must be one of: absent, present, query, got: " ++ "deleted") :=
  owner_state_choices_and_defaults "fabric" "deleted" (by decide) (by decide)

/-- Claim C2: when state is present or absent and any of tenant,
bridge-domain or label is missing, the invocation fails validation and no
network request at all is issued. -/
theorem missing_required_fields_fail_before_io (p : Params)
    (hstate : p.state = some "present" ∨ p.state = some "absent")
    (hmiss : p.tenant = none ∨ p.bd = none ∨ p.dhcp_label = none) :
    (∃ e, main p = Except.error e) ∧ ∀ remote, runModule p remote = [] := by
  have herr : ∃ e, validate p = Except.error e := by
    unfold validate
    by_cases hd : p.description.isSome = true
    · rw [if_pos hd]
      exact ⟨_, rfl⟩
    · rw [if_neg hd]
      by_cases ho : p.owner.getD "infra" = "infra" ∨ p.owner.getD "infra" = "tenant"
      · rw [if_pos ho]
        have hst : p.state.getD "present" = "absent" ∨ p.state.getD "present" = "present" ∨
            p.state.getD "present" = "query" := by
          rcases hstate with h | h <;> rw [h] <;> simp
        rw [if_pos hst]
        have hreq : (p.state.getD "present" = "absent" ∨ p.state.getD "present" = "present") ∧
            (p.dhcp_label.isNone ∨ p.bd.isNone ∨ p.tenant.isNone) := by
          constructor
          · rcases hstate with h | h <;> rw [h] <;> simp
          · rcases hmiss with h | h | h <;> rw [h] <;> simp
        rw [if_pos hreq]
        exact ⟨_, rfl⟩
      · rw [if_neg ho]
        exact ⟨_, rfl⟩
  obtain ⟨e, he⟩ := herr
  have hm : main p = Except.error e := by
    unfold main
    rw [he]
  refine ⟨⟨e, hm⟩, fun remote => ?_⟩
  unfold runModule
  rw [hm]

/-- Witness for C2: state present with the tenant missing. -/
theorem missing_required_fields_fail_before_io_witness :
    (∃ e, main ⟨some "BD1", some "L1", none, none, some "present", none, none⟩ =
        Except.error e) ∧
    ∀ remote, runModule ⟨some "BD1", some "L1", none, none, some "present", none, none⟩
        remote = [] :=
  missing_required_fields_fail_before_io
    ⟨some "BD1", some "L1", none, none, some "present", none, none⟩
    (Or.inl rfl) (Or.inl rfl)

/-- Claim C3: a valid present invocation fetches first, then builds the
dhcpLbl class configuration that is exactly name=dhcp_label and owner=owner,
then computes the diff, and only then reaches the write step; and any write
actually issued carries exactly the nonempty diff of the desired
configuration against the fetched object — no diff, no write. -/
theorem present_fetch_payload_diff_write (T B L ow : String) (opt : Option String)
    (remote : Option AciObject) (how : ow = "infra" ∨ ow = "tenant") :
    (∃ loc, main ⟨some B, some L, opt, some ow, some "present", some T, none⟩ =
        Except.ok [Op.construct_url loc, Op.get_existing,
          Op.payload "dhcpLbl" [("name", some L), ("owner", some ow)]
            [{ child_class := "dhcpRsDhcpOptionPol",
               attributes := [("tnDhcpOptionPolName", opt)] }],
          Op.get_diff "dhcpLbl", Op.post_config, Op.exit_json]) ∧
    (∀ c, NetReq.write c ∈
        runModule ⟨some B, some L, opt, some ow, some "present", some T, none⟩ remote →
      aciGetDiff remote (some (aciPayload [("name", some L), ("owner", some ow)]
        [{ child_class := "dhcpRsDhcpOptionPol",
           attributes := [("tnDhcpOptionPolName", opt)] }])) = some c) := by
  rcases how with h | h <;> subst h <;>
    refine ⟨⟨_, rfl⟩, fun c hc => ?_⟩ <;>
    [cases hdiff : aciGetDiff remote (some (aciPayload
        [("name", some L), ("owner", some "infra")]
        [{ child_class := "dhcpRsDhcpOptionPol",
           attributes := [("tnDhcpOptionPolName", opt)] }]));
     cases hdiff : aciGetDiff remote (some (aciPayload
        [("name", some L), ("owner", some "tenant")]
        [{ child_class := "dhcpRsDhcpOptionPol",
           attributes := [("tnDhcpOptionPolName", opt)] }]))] <;>
    simp [runModule, main, validate, interp, interpOp, CollabState.init, hdiff] at hc <;>
    simp [hdiff, hc]

/-- Witness for C3 at tenant T1, bridge-domain BD1, label L1, owner infra,
no option policy, object absent remotely. -/
theorem present_fetch_payload_diff_write_witness :
    (∃ loc, main ⟨some "BD1", some "L1", none, some "infra", some "present", some "T1", none⟩ =
        Except.ok [Op.construct_url loc, Op.get_existing,
          Op.payload "dhcpLbl" [("name", some "L1"), ("owner", some "infra")]
            [{ child_class := "dhcpRsDhcpOptionPol",
               attributes := [("tnDhcpOptionPolName", none)] }],
          Op.get_diff "dhcpLbl", Op.post_config, Op.exit_json]) ∧
    (∀ c, NetReq.write c ∈
        runModule ⟨some "BD1", some "L1", none, some "infra", some "present", some "T1", none⟩
          none →
      aciGetDiff none (some (aciPayload [("name", some "L1"), ("owner", some "infra")]
        [{ child_class := "dhcpRsDhcpOptionPol",
           attributes := [("tnDhcpOptionPolName", none)] }])) = some c) :=
  present_fetch_payload_diff_write "T1" "BD1" "L1" "infra" none none (Or.inl rfl)

/-- Claim C7: in a present invocation the desired configuration carries zero
or one child association record: none when no dhcp_option is supplied, and
exactly one record naming the DHCP option policy when it is. -/
theorem child_payload_zero_or_one (T B L ow : String) (remote : Option AciObject)
    (how : ow = "infra" ∨ ow = "tenant") :
    (moduleProposed ⟨some B, some L, none, some ow, some "present", some T, none⟩
        remote).map Proposed.children = some [] ∧
    ∀ o, (moduleProposed ⟨some B, some L, some o, some ow, some "present", some T, none⟩
        remote).map Proposed.children =
      some [("dhcpRsDhcpOptionPol", [("tnDhcpOptionPolName", o)])] := by
  rcases how with h | h <;> subst h <;> exact ⟨rfl, fun o => rfl⟩

/-- Witness for C7 at tenant T1, bridge-domain BD1, label L1, owner infra,
object absent remotely. -/
theorem child_payload_zero_or_one_witness :
    (moduleProposed ⟨some "BD1", some "L1", none, some "infra", some "present", some "T1", none⟩
        none).map Proposed.children = some [] ∧
    ∀ o, (moduleProposed ⟨some "BD1", some "L1", some o, some "infra", some "present",
        some "T1", none⟩ none).map Proposed.children =
      some [("dhcpRsDhcpOptionPol", [("tnDhcpOptionPolName", o)])] :=
  child_payload_zero_or_one "T1" "BD1" "L1" "infra" none (Or.inl rfl)

/-- Claim C9: every invocation that passes validation performs exactly one
fetch, at most one mutating call (write or delete, never both), and ends by
emitting the result exactly once, as the last step. -/
theorem single_reconciliation_cycle (p : Params) (ops : List Op)
    (h : main p = Except.ok ops) :
    ops.countP isFetchOp = 1 ∧
    ops.countP isPostOp + ops.countP isDeleteOp ≤ 1 ∧
    ops.countP isExitOp = 1 ∧
    ops.getLast? = some Op.exit_json := by
  unfold main at h
  cases hv : validate p with
  | error e =>
    rw [hv] at h
    exact absurd h (by simp)
  | ok v =>
    rw [hv] at h
    have hops := (Except.ok.inj h).symm
    subst hops
    by_cases h1 : v.state = "present"
    · rw [if_pos h1]
      exact ⟨rfl, Nat.le_refl 1, rfl, rfl⟩
    · rw [if_neg h1]
      by_cases h2 : v.state = "absent"
      · rw [if_pos h2]
        exact ⟨rfl, Nat.le_refl 1, rfl, rfl⟩
      · rw [if_neg h2]
        exact ⟨rfl, Nat.zero_le 1, rfl, rfl⟩

/-- Witness for C9: a query invocation and its concrete call trace. -/
theorem single_reconciliation_cycle_witness :
    ([Op.construct_url
        { root_class :=
            { aci_class := "fvTenant", aci_rn := "tn-T1",
              target_filter := "eq(fvTenant.name, \"T1\")",
              module_object := some "T1" },
          subclass_1 :=
            { aci_class := "fvBD", aci_rn := "BD-BD1",
              target_filter := "eq(fvBD.name, \"BD1\")",
              module_object := some "BD1" },
          subclass_2 :=
            { aci_class := "dhcpLbl", aci_rn := "dhcplbl-L1",
              target_filter := "eq(dhcpLbl.name, \"L1\")",
              module_object := some "L1" },
          child_classes := ["dhcpRsDhcpOptionPol"] },
      Op.get_existing, Op.exit_json] : List Op).countP isFetchOp = 1 ∧
    ([Op.construct_url
        { root_class :=
            { aci_class := "fvTenant", aci_rn := "tn-T1",
              target_filter := "eq(fvTenant.name, \"T1\")",
              module_object := some "T1" },
          subclass_1 :=
            { aci_class := "fvBD", aci_rn := "BD-BD1",
              target_filter := "eq(fvBD.name, \"BD1\")",
              module_object := some "BD1" },
          subclass_2 :=
            { aci_class := "dhcpLbl", aci_rn := "dhcplbl-L1",
              target_filter := "eq(dhcpLbl.name, \"L1\")",
              module_object := some "L1" },
          child_classes := ["dhcpRsDhcpOptionPol"] },
      Op.get_existing, Op.exit_json] : List Op).countP isPostOp +
    ([Op.construct_url
        { root_class :=
            { aci_class := "fvTenant", aci_rn := "tn-T1",
              target_filter := "eq(fvTenant.name, \"T1\")",
              module_object := some "T1" },
          subclass_1 :=
            { aci_class := "fvBD", aci_rn := "BD-BD1",
              target_filter := "eq(fvBD.name, \"BD1\")",
              module_object := some "BD1" },
          subclass_2 :=
            { aci_class := "dhcpLbl", aci_rn := "dhcplbl-L1",
              target_filter := "eq(dhcpLbl.name, \"L1\")",
              module_object := some "L1" },
          child_classes := ["dhcpRsDhcpOptionPol"] },
      Op.get_existing, Op.exit_json] : List Op).countP isDeleteOp ≤ 1 ∧
    ([Op.construct_url
        { root_class :=
            { aci_class := "fvTenant", aci_rn := "tn-T1",
              target_filter := "eq(fvTenant.name, \"T1\")",
              module_object := some "T1" },
          subclass_1 :=
            { aci_class := "fvBD", aci_rn := "BD-BD1",
              target_filter := "eq(fvBD.name, \"BD1\")",
              module_object := some "BD1" },
          subclass_2 :=
            { aci_class := "dhcpLbl", aci_rn := "dhcplbl-L1",
              target_filter := "eq(dhcpLbl.name, \"L1\")",
              module_object := some "L1" },
          child_classes := ["dhcpRsDhcpOptionPol"] },
      Op.get_existing, Op.exit_json] : List Op).countP isExitOp = 1 ∧
    ([Op.construct_url
        { root_class :=
            { aci_class := "fvTenant", aci_rn := "tn-T1",
              target_filter := "eq(fvTenant.name, \"T1\")",
              module_object := some "T1" },
          subclass_1 :=
            { aci_class := "fvBD", aci_rn := "BD-BD1",
              target_filter := "eq(fvBD.name, \"BD1\")",
              module_object := some "BD1" },
          subclass_2 :=
            { aci_class := "dhcpLbl", aci_rn := "dhcplbl-L1",
              target_filter := "eq(dhcpLbl.name, \"L1\")",
              module_object := some "L1" },
          child_classes := ["dhcpRsDhcpOptionPol"] },
      Op.get_existing, Op.exit_json] : List Op).getLast? = some Op.exit_json :=
  single_reconciliation_cycle
    ⟨some "BD1", some "L1", none, none, some "query", some "T1", none⟩ _ rfl

end AciBdDhcpLabel

namespace UsesLeafMuModuleImportFrom

/-- Claim C10: given the module-utility call returned v, the fixture module
emits exactly one JSON result, with changed=false, source=user and
mu_result=v, and terminates with exit status zero as its last action — it
never reports a change and never exits non-zero. -/
theorem fixture_emits_once_and_exits_zero {V : Type} (v : V) :
    (fixtureMain v).filter FixtureEvent.isEmit =
      [FixtureEvent.emit false "user" v] ∧
    (fixtureMain v).filter FixtureEvent.isExitStatus =
      [FixtureEvent.exitStatus 0] ∧
    (fixtureMain v).getLast? = some (FixtureEvent.exitStatus 0) :=
  ⟨rfl, rfl, rfl⟩

end UsesLeafMuModuleImportFrom
